import Mathlib

/-!
Verification of the openai-mcp image-generation server (src/src/mcp-server.ts and
src/src/openai-provider.ts) against its natural-language specification.

The TypeScript code is shallowly embedded:
  - JavaScript objects become Lean structures with Option-typed fields (an absent
    or undefined key is none);
  - the remote OpenAI call, the URL download (axios.get) and the existsSync check
    become oracle functions passed as parameters;
  - filesystem side effects (mkdirSync, writeFileSync) are recorded in an event
    trace, in program order;
  - thrown exceptions become Except.error carrying the message string;
  - Node's path.dirname / path.extname / path.basename / path.join are modelled
    on character lists, following Node's posix semantics for slash-free basenames
    (the only shapes the theorems quantify over).
-/

namespace OpenAiMcp

/-- One entry of the upstream response's image list (per generated image):
b64_json carries inline base64 bytes, url a remote reference; either may be absent. -/
structure ImageData where
  b64_json : Option String := none
  url : Option String := none
deriving DecidableEq, Repr

/-- The raw upstream response (OpenAI.Images.ImagesResponse). The SDK types the
image list as optional, and the code guards for its absence, so data is Option. -/
structure ImagesResponse where
  created : Int := 0
  data : Option (List ImageData) := none
deriving DecidableEq, Repr

/-- The model-specific parameter record built by a tool handler and passed to the
adapter (ImageGenerationOptions in openai-provider.ts). The TypeScript handlers
build object literals containing only the keys legal for the chosen variant; a
key the handler does not write is none here. -/
structure ImageGenerationOptions where
  model : String
  n : Option Int := none
  size : Option String := none
  quality : Option String := none
  style : Option String := none
  background : Option String := none
  moderation : Option String := none
  output_compression : Option Int := none
  output_format : Option String := none
  user : Option String := none
deriving DecidableEq, Repr

/-- The upstream call parameters built inside generateImage
(OpenAI.Images.ImageGenerateParams as constructed by the three branches). -/
structure ImageGenerateParams where
  model : String
  prompt : String
  n : Option Int := none
  size : Option String := none
  quality : Option String := none
  style : Option String := none
  background : Option String := none
  moderation : Option String := none
  output_compression : Option Int := none
  output_format : Option String := none
  response_format : String
  user : Option String := none
deriving DecidableEq, Repr

/-- Successful result of the adapter (ImageGenerationResult). -/
structure ImageGenerationResult where
  response : ImagesResponse
  savedFiles : List String
deriving DecidableEq, Repr

/-- A recorded filesystem side effect: a recursive mkdirSync or a writeFileSync. -/
inductive FsEvent where
  | mkdir (path : String)
  | write (path : String) (bytes : List Nat)
deriving DecidableEq, Repr

/-- Trace of the observable effects of one adapter call: every upstream call made
(in order) and every filesystem event (in program order). -/
structure GenTrace where
  remoteCalls : List ImageGenerateParams := []
  fs : List FsEvent := []
deriving DecidableEq, Repr

/-! ## Node path model

path.dirname, path.extname, path.basename and path.join, modelled on the
character list underlying the string, following Node's posix behaviour for the
path shapes that occur (no trailing slashes, slash-free basenames). -/

/-- Characters of the basename: everything after the last slash. -/
def afterLastSlashL (cs : List Char) : List Char :=
  (cs.reverse.takeWhile (fun c => c != '/')).reverse

/-- Node path.dirname on a character list: everything before the last slash,
"." when there is no slash, "/" when the prefix is empty. -/
def dirnameL (cs : List Char) : List Char :=
  if '/' ∈ cs then
    let pre := ((cs.reverse.dropWhile (fun c => c != '/')).drop 1).reverse
    if pre = [] then ['/'] else pre
  else ['.']

/-- Node path.extname on a character list: from the last dot of the basename,
empty when the basename has no dot past its first character. -/
def extnameL (cs : List Char) : List Char :=
  let base := afterLastSlashL cs
  if '.' ∈ base.drop 1 then
    '.' :: (base.reverse.takeWhile (fun c => c != '.')).reverse
  else []

/-- Boolean suffix test on character lists. -/
def endsWithL (l suf : List Char) : Bool :=
  l.reverse.take suf.length == suf.reverse

/-- Node path.basename(p, ext) on character lists: the part after the last slash,
with ext stripped when it is a proper suffix. -/
def basenameL (cs ext : List Char) : List Char :=
  let base := afterLastSlashL cs
  if ext ≠ [] ∧ endsWithL base ext = true ∧ base ≠ ext then
    base.take (base.length - ext.length)
  else base

/-- Node path.dirname. -/
def dirname (p : String) : String := ⟨dirnameL p.data⟩

/-- Node path.extname. -/
def extname (p : String) : String := ⟨extnameL p.data⟩

/-- Node path.basename(p, ext). -/
def basenameSuffix (p : String) (ext : String) : String := ⟨basenameL p.data ext.data⟩

/-- Node path.join for the two-argument uses in saveImages (no normalization
beyond the empty first component). -/
def pathJoin (a b : String) : String :=
  if a.data = [] then b else ⟨a.data ++ '/' :: b.data⟩

/-! ## Base64 decoding (Buffer.from(s, 'base64')) -/

/-- Value of one base64 alphabet character; none for padding and foreign
characters, which Node's decoder skips. -/
def b64val (c : Char) : Option Nat :=
  if 'A' ≤ c ∧ c ≤ 'Z' then some (c.toNat - 65)
  else if 'a' ≤ c ∧ c ≤ 'z' then some (c.toNat - 97 + 26)
  else if '0' ≤ c ∧ c ≤ '9' then some (c.toNat - 48 + 52)
  else if c = '+' then some 62
  else if c = '/' then some 63
  else none

/-- Reassemble bytes from the 6-bit groups, truncating trailing bits. -/
def b64bytes : List Nat → List Nat
  | a :: b :: c :: d :: rest =>
      (a * 4 + b / 16) :: ((b % 16) * 16 + c / 4) :: ((c % 4) * 64 + d) :: b64bytes rest
  | [a, b] => [a * 4 + b / 16]
  | [a, b, c] => [(a * 4 + b / 16), ((b % 16) * 16 + c / 4)]
  | _ => []

/-- Decoded bytes of a base64 string, Buffer.from(s, 'base64') style. -/
def b64decode (s : String) : List Nat :=
  b64bytes (s.data.filterMap b64val)

/-- The 69 bytes of the hard-coded 1x1 PNG written for entries that carry neither
inline bytes nor a URL (openai-provider.ts lines 181-196). -/
def pngPlaceholder : List Nat :=
  [0x89, 0x50, 0x4E, 0x47, 0x0D, 0x0A, 0x1A, 0x0A,
   0x00, 0x00, 0x00, 0x0D,
   0x49, 0x48, 0x44, 0x52,
   0x00, 0x00, 0x00, 0x01,
   0x00, 0x00, 0x00, 0x01,
   0x08, 0x02, 0x00, 0x00, 0x00,
   0x90, 0x77, 0x53, 0xDE,
   0x00, 0x00, 0x00, 0x0C,
   0x49, 0x44, 0x41, 0x54,
   0x08, 0x99, 0x63, 0x60, 0x60, 0x60, 0x00, 0x00, 0x00, 0x04, 0x00, 0x01,
   0x27, 0x9B, 0x72, 0x4E,
   0x00, 0x00, 0x00, 0x00,
   0x49, 0x45, 0x4E, 0x44,
   0xAE, 0x42, 0x60, 0x82]

/-! ## Generation adapter (OpenAiProvider) -/

/-- JavaScript truthiness of an optional string field: undefined and the empty
string are falsy. -/
def jsTruthy : Option String → Bool
  | none => false
  | some s => !s.isEmpty

/-- Bytes written for one image entry, following saveImages' precedence:
truthy b64_json decodes inline bytes, else a truthy url is fetched, else the
hard-coded placeholder PNG. A fetch failure is the only error. -/
def entryBytes (img : ImageData) (fetch : String → Except String (List Nat)) :
    Except String (List Nat) :=
  if jsTruthy img.b64_json then Except.ok (b64decode (img.b64_json.getD ""))
  else if jsTruthy img.url then fetch (img.url.getD "")
  else Except.ok pngPlaceholder

/-- Destination path of the entry at 0-based index i (openai-provider.ts lines
160-166): outputPath itself when the response carries exactly one entry, else
the sibling path with _(i+1) inserted before the extension. -/
def entryFilePath (total : Nat) (outputPath outputDir outputBasename outputExt : String)
    (i : Nat) : String :=
  if total = 1 then outputPath
  else pathJoin outputDir (outputBasename ++ "_" ++ toString (i + 1) ++ outputExt)

/-- The for loop of saveImages: resolves each entry's destination path and
writes its bytes; returns the loop's outcome and the writeFileSync calls it
performed, in order. -/
def saveEntries (fetch : String → Except String (List Nat)) (total : Nat)
    (outputPath outputDir outputBasename outputExt : String) :
    Nat → List ImageData → Except String Unit × List (String × List Nat)
  | _, [] => (Except.ok (), [])
  | i, img :: rest =>
    let filePath := entryFilePath total outputPath outputDir outputBasename outputExt i
    match entryBytes img fetch with
    | Except.error e => (Except.error e, [])
    | Except.ok bytes =>
      let r := saveEntries fetch total outputPath outputDir outputBasename outputExt (i + 1) rest
      (r.1, (filePath, bytes) :: r.2)

/-- OpenAiProvider.saveImages: splits outputPath with the path module, creates
the output directory when existsSync is false, then writes every entry; returns
the saved paths in entry order together with the filesystem events. -/
def saveImages (data : List ImageData) (outputPath : String)
    (fetch : String → Except String (List Nat)) (fsExists : String → Bool) :
    Except String (List String) × List FsEvent :=
  let outputDir := dirname outputPath
  let outputExt := extname outputPath
  let outputBasename := basenameSuffix outputPath outputExt
  let mkE := if fsExists outputDir then ([] : List FsEvent) else [FsEvent.mkdir outputDir]
  let r := saveEntries fetch data.length outputPath outputDir outputBasename outputExt 0 data
  let events := mkE ++ r.2.map (fun w => FsEvent.write w.1 w.2)
  match r.1 with
  | Except.ok _ => (Except.ok (r.2.map Prod.fst), events)
  | Except.error e => (Except.error e, events)

/-- The parameter-building branches of generateImage (openai-provider.ts lines
84-121): one branch for the two gpt-image models, one for dall-e-3 (which
hard-codes n to 1), a final else for dall-e-2; every branch sets
response_format to b64_json. -/
def buildParams (prompt : String) (options : ImageGenerationOptions) :
    ImageGenerateParams :=
  if options.model = "gpt-image-1" ∨ options.model = "gpt-image-1-mini" then
    { model := options.model, prompt := prompt, n := options.n, size := options.size,
      quality := options.quality, background := options.background,
      moderation := options.moderation, output_compression := options.output_compression,
      output_format := options.output_format, response_format := "b64_json",
      user := options.user }
  else if options.model = "dall-e-3" then
    { model := "dall-e-3", prompt := prompt, n := some 1, size := options.size,
      quality := options.quality, style := options.style,
      response_format := "b64_json", user := options.user }
  else
    { model := "dall-e-2", prompt := prompt, n := options.n, size := options.size,
      response_format := "b64_json", user := options.user }

/-- The degenerate entry the code substitutes for an empty image list:
an object with url and b64_json both undefined. -/
def mockEntry : ImageData := { b64_json := none, url := none }

/-- Message of the TypeError raised by reading .length of undefined
(the debug log at openai-provider.ts line 126). -/
def lengthOfUndefinedMsg : String :=
  "Cannot read properties of undefined (reading 'length')"

/-- OpenAiProvider.generateImage: builds the upstream parameters, invokes the
remote capability, logs response.data.length (which throws when data is
undefined), substitutes a single mock entry when the list is empty, saves the
images, and returns the (possibly mutated) response with the saved paths.
Every thrown error propagates to the caller unchanged. -/
def generateImage (prompt outputPath : String) (options : ImageGenerationOptions)
    (remote : ImageGenerateParams → Except String ImagesResponse)
    (fetch : String → Except String (List Nat)) (fsExists : String → Bool) :
    Except String ImageGenerationResult × GenTrace :=
  let params := buildParams prompt options
  match remote params with
  | Except.error e => (Except.error e, { remoteCalls := [params] })
  | Except.ok response =>
    match response.data with
    | none =>
      (Except.error lengthOfUndefinedMsg, { remoteCalls := [params] })
    | some d =>
      let dsub := if d.length = 0 then [mockEntry] else d
      let response1 : ImagesResponse := { response with data := some dsub }
      let r := saveImages dsub outputPath fetch fsExists
      match r.1 with
      | Except.ok savedFiles =>
        (Except.ok { response := response1, savedFiles := savedFiles },
         { remoteCalls := [params], fs := r.2 })
      | Except.error e =>
        (Except.error e, { remoteCalls := [params], fs := r.2 })

/-! ## Tool catalog and dispatcher (ImageGenerationServer) -/

/-- Protocol error codes used by the dispatcher (McpError codes). -/
inductive ErrCode where
  | methodNotFound
  | invalidParams
deriving DecidableEq, Repr

/-- A thrown protocol-level error (McpError): it escapes the handler and reaches
the transport. -/
structure McpError where
  code : ErrCode
  message : String
deriving DecidableEq, Repr

/-- The untyped argument bag of a tool invocation; an absent key is none and the
handlers read keys without checking enums or ranges. -/
structure Args where
  prompt : Option String := none
  output : Option String := none
  n : Option Int := none
  size : Option String := none
  quality : Option String := none
  style : Option String := none
  background : Option String := none
  moderation : Option String := none
  output_compression : Option Int := none
  output_format : Option String := none
  user : Option String := none
deriving DecidableEq, Repr

/-- The payload a handler returns normally through the transport. The success
case carries the fields serialized into the JSON text (success true, the model
tag, saved files, raw response); the failure case is the isError content whose
text is derived from the caught error. -/
inductive ToolOutcome where
  | success (model : String) (savedFiles : List String) (response : ImagesResponse)
  | failure (text : String)
deriving DecidableEq, Repr

/-- Falsiness of a required argument, matching if (!args.prompt): absent or
empty strings fail validation. -/
def argFalsy : Option String → Bool
  | none => true
  | some s => s.isEmpty

/-- Text of the failure payload: the caught error's message, or Unknown error
when that message is falsy. -/
def errText (e : String) : String :=
  "Error generating image: " ++ (if e.isEmpty then "Unknown error" else e)

/-- Options record built by handleGptImageGeneration (mcp-server.ts 305-315). -/
def gptImage1Options (args : Args) : ImageGenerationOptions :=
  { model := "gpt-image-1", n := args.n, size := args.size, quality := args.quality,
    background := args.background, moderation := args.moderation,
    output_compression := args.output_compression, output_format := args.output_format,
    user := args.user }

/-- Options record built by handleGptImageMiniGeneration (mcp-server.ts 360-370). -/
def gptImage1MiniOptions (args : Args) : ImageGenerationOptions :=
  { model := "gpt-image-1-mini", n := args.n, size := args.size, quality := args.quality,
    background := args.background, moderation := args.moderation,
    output_compression := args.output_compression, output_format := args.output_format,
    user := args.user }

/-- Options record built by handleDalle3Generation (mcp-server.ts 415-422):
n is the literal 1, args.n is never read. -/
def dalle3Options (args : Args) : ImageGenerationOptions :=
  { model := "dall-e-3", n := some 1, size := args.size, quality := args.quality,
    style := args.style, user := args.user }

/-- Options record built by handleDalle2Generation (mcp-server.ts 467-472). -/
def dalle2Options (args : Args) : ImageGenerationOptions :=
  { model := "dall-e-2", n := args.n, size := args.size, user := args.user }

/-- Shared shape of the four handlers: validate prompt and output (throwing
InvalidParams), then run the adapter inside try, wrapping success into the
success payload and any caught error into a non-thrown failure payload. -/
def runHandler (modelTag : String) (options : ImageGenerationOptions) (args : Args)
    (remote : ImageGenerateParams → Except String ImagesResponse)
    (fetch : String → Except String (List Nat)) (fsExists : String → Bool) :
    Except McpError ToolOutcome × GenTrace :=
  if argFalsy args.prompt then
    (Except.error { code := ErrCode.invalidParams, message := "Prompt is required" }, {})
  else if argFalsy args.output then
    (Except.error { code := ErrCode.invalidParams, message := "Output file path is required" }, {})
  else
    let r := generateImage (args.prompt.getD "") (args.output.getD "") options
      remote fetch fsExists
    match r.1 with
    | Except.ok result =>
      (Except.ok (ToolOutcome.success modelTag result.savedFiles result.response), r.2)
    | Except.error e => (Except.ok (ToolOutcome.failure (errText e)), r.2)

/-- ImageGenerationServer.handleGptImageGeneration. -/
def handleGptImageGeneration (args : Args)
    (remote : ImageGenerateParams → Except String ImagesResponse)
    (fetch : String → Except String (List Nat)) (fsExists : String → Bool) :
    Except McpError ToolOutcome × GenTrace :=
  runHandler "gpt-image-1" (gptImage1Options args) args remote fetch fsExists

/-- ImageGenerationServer.handleGptImageMiniGeneration. -/
def handleGptImageMiniGeneration (args : Args)
    (remote : ImageGenerateParams → Except String ImagesResponse)
    (fetch : String → Except String (List Nat)) (fsExists : String → Bool) :
    Except McpError ToolOutcome × GenTrace :=
  runHandler "gpt-image-1-mini" (gptImage1MiniOptions args) args remote fetch fsExists

/-- ImageGenerationServer.handleDalle3Generation. -/
def handleDalle3Generation (args : Args)
    (remote : ImageGenerateParams → Except String ImagesResponse)
    (fetch : String → Except String (List Nat)) (fsExists : String → Bool) :
    Except McpError ToolOutcome × GenTrace :=
  runHandler "dall-e-3" (dalle3Options args) args remote fetch fsExists

/-- ImageGenerationServer.handleDalle2Generation. -/
def handleDalle2Generation (args : Args)
    (remote : ImageGenerateParams → Except String ImagesResponse)
    (fetch : String → Except String (List Nat)) (fsExists : String → Bool) :
    Except McpError ToolOutcome × GenTrace :=
  runHandler "dall-e-2" (dalle2Options args) args remote fetch fsExists

/-- The CallTool dispatcher (mcp-server.ts 274-292): route on the tool name,
throwing MethodNotFound for an unknown name. -/
def callTool (toolName : String) (args : Args)
    (remote : ImageGenerateParams → Except String ImagesResponse)
    (fetch : String → Except String (List Nat)) (fsExists : String → Bool) :
    Except McpError ToolOutcome × GenTrace :=
  if toolName = "generate_image_gpt" then
    handleGptImageGeneration args remote fetch fsExists
  else if toolName = "generate_image_gpt_mini" then
    handleGptImageMiniGeneration args remote fetch fsExists
  else if toolName = "generate_image_dalle3" then
    handleDalle3Generation args remote fetch fsExists
  else if toolName = "generate_image_dalle2" then
    handleDalle2Generation args remote fetch fsExists
  else
    (Except.error { code := ErrCode.methodNotFound, message := "Unknown tool: " ++ toolName }, {})

/-! ## Spec-side format predicates (for claim C5's container-format comparison) -/

/-- Modelled from the spec: whether a byte sequence is in the given output
container format, read as the format's standard magic numbers (PNG signature,
JPEG start-of-image marker, RIFF....WEBP header). The spec's phrase is "a 1x1
image in the output container format". -/
def matchesContainerFormat (fmt : String) (bytes : List Nat) : Bool :=
  if fmt = "png" then bytes.take 8 == [0x89, 0x50, 0x4E, 0x47, 0x0D, 0x0A, 0x1A, 0x0A]
  else if fmt = "jpeg" then bytes.take 2 == [0xFF, 0xD8]
  else if fmt = "webp" then
    (bytes.take 4 == [0x52, 0x49, 0x46, 0x46]) &&
    ((bytes.drop 8).take 4 == [0x57, 0x45, 0x42, 0x50])
  else false

/-- Modelled from the spec: a minimal valid 1x1 PNG, read as: PNG signature,
IHDR width and height both 1, and an IEND chunk at the end. -/
def isMinimalPng (bytes : List Nat) : Bool :=
  matchesContainerFormat "png" bytes &&
  ((bytes.drop 16).take 4 == [0, 0, 0, 1]) &&
  ((bytes.drop 20).take 4 == [0, 0, 0, 1]) &&
  ((bytes.drop (bytes.length - 8)).take 4 == [0x49, 0x45, 0x4E, 0x44])

/-! ## Helper lemmas about the path model -/

theorem takeWhile_append_of_all {p : Char → Bool} {l₁ l₂ : List Char}
    (h : ∀ c ∈ l₁, p c = true) :
    (l₁ ++ l₂).takeWhile p = l₁ ++ l₂.takeWhile p := by
  induction l₁ with
  | nil => simp
  | cons a l ih =>
    have ha : p a = true := h a (List.mem_cons_self a l)
    simp [List.takeWhile_cons, ha,
      ih (fun c hc => h c (List.mem_cons_of_mem a hc))]

theorem dropWhile_append_of_all {p : Char → Bool} {l₁ l₂ : List Char}
    (h : ∀ c ∈ l₁, p c = true) :
    (l₁ ++ l₂).dropWhile p = l₂.dropWhile p := by
  induction l₁ with
  | nil => simp
  | cons a l ih =>
    have ha : p a = true := h a (List.mem_cons_self a l)
    simp [List.dropWhile_cons, ha,
      ih (fun c hc => h c (List.mem_cons_of_mem a hc))]

theorem reverse_sep (d b : List Char) :
    (d ++ '/' :: b).reverse = b.reverse ++ '/' :: d.reverse := by
  simp [List.reverse_append]

theorem not_slash_all {b : List Char} (hb : '/' ∉ b) :
    ∀ c ∈ b.reverse, (c != '/') = true := by
  intro c hc
  exact bne_iff_ne.mpr (fun he => hb (he ▸ List.mem_reverse.mp hc))

theorem afterLastSlashL_append (d b : List Char) (hb : '/' ∉ b) :
    afterLastSlashL (d ++ '/' :: b) = b := by
  unfold afterLastSlashL
  rw [reverse_sep, takeWhile_append_of_all (not_slash_all hb)]
  simp [List.takeWhile_cons]

theorem dirnameL_append (d b : List Char) (hd : d ≠ []) (hb : '/' ∉ b) :
    dirnameL (d ++ '/' :: b) = d := by
  unfold dirnameL
  rw [if_pos (List.mem_append.mpr (Or.inr (List.mem_cons_self _ _)))]
  rw [reverse_sep, dropWhile_append_of_all (not_slash_all hb)]
  simp [List.dropWhile_cons, hd]

theorem not_dot_all {e : List Char} (he : '.' ∉ e) :
    ∀ c ∈ e.reverse, (c != '.') = true := by
  intro c hc
  exact bne_iff_ne.mpr (fun hce => he (hce ▸ List.mem_reverse.mp hc))

theorem no_slash_in_basename {stem e : List Char} (hs1 : '/' ∉ stem)
    (he1 : '/' ∉ e) : '/' ∉ stem ++ '.' :: e := by
  intro h
  rcases List.mem_append.mp h with h | h
  · exact hs1 h
  · rcases List.mem_cons.mp h with h | h
    · exact absurd h (by decide)
    · exact he1 h

theorem extnameL_shape (d stem e : List Char) (hstem : stem ≠ [])
    (hs1 : '/' ∉ stem) (he1 : '/' ∉ e) (he2 : '.' ∉ e) :
    extnameL (d ++ '/' :: (stem ++ '.' :: e)) = '.' :: e := by
  unfold extnameL
  rw [afterLastSlashL_append _ _ (no_slash_in_basename hs1 he1)]
  have hdot : '.' ∈ (stem ++ '.' :: e).drop 1 := by
    obtain ⟨s0, srest, rfl⟩ : ∃ s0 srest, stem = s0 :: srest := by
      cases stem with
      | nil => exact absurd rfl hstem
      | cons s0 srest => exact ⟨s0, srest, rfl⟩
    simp
  rw [if_pos hdot]
  have h2 : (stem ++ '.' :: e).reverse = e.reverse ++ '.' :: stem.reverse := by
    simp [List.reverse_append]
  rw [h2, takeWhile_append_of_all (not_dot_all he2)]
  simp [List.takeWhile_cons]

theorem basenameL_shape (d stem e : List Char) (hstem : stem ≠ [])
    (hs1 : '/' ∉ stem) (he1 : '/' ∉ e) :
    basenameL (d ++ '/' :: (stem ++ '.' :: e)) ('.' :: e) = stem := by
  unfold basenameL
  rw [afterLastSlashL_append _ _ (no_slash_in_basename hs1 he1)]
  have hsuf : endsWithL (stem ++ '.' :: e) ('.' :: e) = true := by
    unfold endsWithL
    have h1 : (stem ++ '.' :: e).reverse = ('.' :: e).reverse ++ stem.reverse := by
      simp [List.reverse_append]
    rw [h1]
    have h2 : (('.' :: e).reverse ++ stem.reverse).take ('.' :: e).length
        = ('.' :: e).reverse := by
      have := List.take_left ('.' :: e).reverse stem.reverse
      rwa [List.length_reverse] at this
    rw [h2]
    simp
  have hne : stem ++ '.' :: e ≠ '.' :: e := by
    intro h
    have hlen := congrArg List.length h
    simp at hlen
    exact hstem hlen
  rw [if_pos ⟨List.cons_ne_nil _ _, hsuf, hne⟩]
  have hl : (stem ++ '.' :: e).length - ('.' :: e).length = stem.length := by
    simp [List.length_append]
  rw [hl]
  exact List.take_left stem ('.' :: e)

theorem dirname_shape (d stem e : List Char) (hd : d ≠ []) (hs1 : '/' ∉ stem)
    (he1 : '/' ∉ e) :
    dirname (String.mk (d ++ '/' :: (stem ++ '.' :: e))) = String.mk d :=
  congrArg String.mk (dirnameL_append d _ hd (no_slash_in_basename hs1 he1))

theorem extname_shape (d stem e : List Char) (hstem : stem ≠ [])
    (hs1 : '/' ∉ stem) (he1 : '/' ∉ e) (he2 : '.' ∉ e) :
    extname (String.mk (d ++ '/' :: (stem ++ '.' :: e))) = String.mk ('.' :: e) :=
  congrArg String.mk (extnameL_shape d stem e hstem hs1 he1 he2)

theorem basename_shape (d stem e : List Char) (hstem : stem ≠ [])
    (hs1 : '/' ∉ stem) (he1 : '/' ∉ e) :
    basenameSuffix (String.mk (d ++ '/' :: (stem ++ '.' :: e))) (String.mk ('.' :: e))
      = String.mk stem :=
  congrArg String.mk (basenameL_shape d stem e hstem hs1 he1)

/-! ## Helper lemmas about the adapter and the handlers -/

theorem generateImage_remoteCalls (prompt outputPath : String)
    (options : ImageGenerationOptions)
    (remote : ImageGenerateParams → Except String ImagesResponse)
    (fetch : String → Except String (List Nat)) (fsExists : String → Bool) :
    (generateImage prompt outputPath options remote fetch fsExists).2.remoteCalls
      = [buildParams prompt options] := by
  unfold generateImage
  dsimp only
  cases hr : remote (buildParams prompt options) with
  | error e => simp [hr]
  | ok response =>
    simp only [hr]
    cases hd : response.data with
    | none => simp [hd]
    | some d =>
      simp only [hd]
      cases hs : (saveImages (if d.length = 0 then [mockEntry] else d)
          outputPath fetch fsExists).1 <;> simp [hs]

theorem runHandler_invalid (modelTag : String) (options : ImageGenerationOptions)
    (args : Args) (remote : ImageGenerateParams → Except String ImagesResponse)
    (fetch : String → Except String (List Nat)) (fsExists : String → Bool)
    (hv : argFalsy args.prompt = true ∨ argFalsy args.output = true) :
    (runHandler modelTag options args remote fetch fsExists).2 = {} ∧
    ∃ m, (runHandler modelTag options args remote fetch fsExists).1
      = Except.error { code := ErrCode.invalidParams, message := m } := by
  unfold runHandler
  by_cases h1 : argFalsy args.prompt
  · rw [if_pos h1]
    exact ⟨rfl, "Prompt is required", rfl⟩
  · have h2 : argFalsy args.output = true := by
      rcases hv with hv | hv
      · exact absurd hv h1
      · exact hv
    rw [if_neg h1, if_pos h2]
    exact ⟨rfl, "Output file path is required", rfl⟩

theorem runHandler_valid (modelTag : String) (options : ImageGenerationOptions)
    (args : Args) (remote : ImageGenerateParams → Except String ImagesResponse)
    (fetch : String → Except String (List Nat)) (fsExists : String → Bool)
    (h1 : argFalsy args.prompt = false) (h2 : argFalsy args.output = false) :
    runHandler modelTag options args remote fetch fsExists =
      (match (generateImage (args.prompt.getD "") (args.output.getD "") options
          remote fetch fsExists).1 with
       | Except.ok result =>
         Except.ok (ToolOutcome.success modelTag result.savedFiles result.response)
       | Except.error e => Except.ok (ToolOutcome.failure (errText e)),
       (generateImage (args.prompt.getD "") (args.output.getD "") options
          remote fetch fsExists).2) := by
  unfold runHandler
  rw [if_neg (by simp [h1]), if_neg (by simp [h2])]
  cases hg : (generateImage (args.prompt.getD "") (args.output.getD "") options
      remote fetch fsExists).1 <;> simp [hg]

theorem runHandler_never_throws (modelTag : String)
    (options : ImageGenerationOptions) (args : Args)
    (remote : ImageGenerateParams → Except String ImagesResponse)
    (fetch : String → Except String (List Nat)) (fsExists : String → Bool)
    (h1 : argFalsy args.prompt = false) (h2 : argFalsy args.output = false) :
    ∃ out, (runHandler modelTag options args remote fetch fsExists).1
      = Except.ok out := by
  rw [runHandler_valid modelTag options args remote fetch fsExists h1 h2]
  cases hg : (generateImage (args.prompt.getD "") (args.output.getD "") options
      remote fetch fsExists).1 with
  | ok result =>
    exact ⟨ToolOutcome.success modelTag result.savedFiles result.response, by simp [hg]⟩
  | error e => exact ⟨ToolOutcome.failure (errText e), by simp [hg]⟩

theorem saveEntries_ok_map_fst (fetch : String → Except String (List Nat))
    (total : Nat) (outputPath outputDir outputBasename outputExt : String) :
    ∀ (entries : List ImageData) (i : Nat),
      (saveEntries fetch total outputPath outputDir outputBasename outputExt
        i entries).1 = Except.ok () →
      (saveEntries fetch total outputPath outputDir outputBasename outputExt
        i entries).2.map Prod.fst =
      (List.range entries.length).map
        (fun k => entryFilePath total outputPath outputDir outputBasename outputExt
          (i + k)) := by
  intro entries
  induction entries with
  | nil => intro i _; simp [saveEntries]
  | cons img rest ih =>
    intro i h
    simp only [saveEntries] at h ⊢
    revert h
    cases hb : entryBytes img fetch with
    | error e => intro h; simp at h
    | ok bytes =>
      intro h
      dsimp only at h ⊢
      rw [List.map_cons, ih (i + 1) h, List.length_cons, List.range_succ_eq_map]
      simp only [List.map_cons, List.map_map, Nat.add_zero]
      have harg : ∀ k : Nat, i + 1 + k = i + Nat.succ k := by omega
      simp [Function.comp, harg]

theorem handler_remoteCalls_mem {modelTag : String}
    {options : ImageGenerationOptions} {args : Args}
    {remote : ImageGenerateParams → Except String ImagesResponse}
    {fetch : String → Except String (List Nat)} {fsExists : String → Bool}
    {p : ImageGenerateParams}
    (hp : p ∈ (runHandler modelTag options args remote fetch fsExists).2.remoteCalls) :
    p = buildParams (args.prompt.getD "") options := by
  cases h1 : argFalsy args.prompt with
  | true =>
    rcases runHandler_invalid modelTag options args remote fetch fsExists (Or.inl h1)
      with ⟨ht, _⟩
    rw [ht] at hp
    simp at hp
  | false =>
    cases h2 : argFalsy args.output with
    | true =>
      rcases runHandler_invalid modelTag options args remote fetch fsExists (Or.inr h2)
        with ⟨ht, _⟩
      rw [ht] at hp
      simp at hp
    | false =>
      rw [runHandler_valid modelTag options args remote fetch fsExists h1 h2] at hp
      simp only [generateImage_remoteCalls] at hp
      simpa using hp

theorem runHandler_adapter_error (modelTag : String)
    (options : ImageGenerationOptions) (args : Args)
    (remote : ImageGenerateParams → Except String ImagesResponse)
    (fetch : String → Except String (List Nat)) (fsExists : String → Bool)
    (e : String)
    (h1 : argFalsy args.prompt = false) (h2 : argFalsy args.output = false)
    (he : (generateImage (args.prompt.getD "") (args.output.getD "") options
      remote fetch fsExists).1 = Except.error e) :
    (runHandler modelTag options args remote fetch fsExists).1
      = Except.ok (ToolOutcome.failure (errText e)) := by
  rw [runHandler_valid modelTag options args remote fetch fsExists h1 h2]
  dsimp only
  rw [he]

/-! ## Claim theorems -/

/-- C9: for every model variant and every parameter record, the upstream call
parameters built by the adapter set response_format to b64_json (the inline
encoding), never the url encoding, whatever the caller supplied. -/
theorem claim_C9_always_b64_json (prompt : String)
    (options : ImageGenerationOptions) :
    (buildParams prompt options).response_format = "b64_json" := by
  unfold buildParams
  split
  · rfl
  · split <;> rfl

/-- C6: a generate_image_dalle3 invocation always passes an options record with
n pinned to 1 to the adapter, and every upstream call the handler causes
carries n = 1, regardless of the argument bag (in particular of args.n). -/
theorem claim_C6_dalle3_pins_n (args : Args)
    (remote : ImageGenerateParams → Except String ImagesResponse)
    (fetch : String → Except String (List Nat)) (fsExists : String → Bool)
    (p : ImageGenerateParams)
    (hp : p ∈ (handleDalle3Generation args remote fetch fsExists).2.remoteCalls) :
    (dalle3Options args).n = some 1 ∧ p.n = some 1 := by
  refine ⟨rfl, ?_⟩
  unfold handleDalle3Generation at hp
  rw [handler_remoteCalls_mem hp]
  rfl

/-- Witness for C6: with n = 5 requested, the options record and the single
upstream call both carry n = 1. -/
theorem claim_C6_witness :
    (dalle3Options { prompt := some "p", output := some "/tmp/i.png", n := some 5 }).n
      = some 1 ∧
    (buildParams "p"
      (dalle3Options { prompt := some "p", output := some "/tmp/i.png", n := some 5 })).n
      = some 1 :=
  claim_C6_dalle3_pins_n
    { prompt := some "p", output := some "/tmp/i.png", n := some 5 }
    (fun _ => Except.error "network failure") (fun _ => Except.error "unused")
    (fun _ => true)
    (buildParams "p"
      (dalle3Options { prompt := some "p", output := some "/tmp/i.png", n := some 5 }))
    (by
      have h : (handleDalle3Generation
          { prompt := some "p", output := some "/tmp/i.png", n := some 5 }
          (fun _ => Except.error "network failure") (fun _ => Except.error "unused")
          (fun _ => true)).2.remoteCalls
          = [buildParams "p"
              (dalle3Options { prompt := some "p", output := some "/tmp/i.png", n := some 5 })] := rfl
      rw [h]
      exact List.mem_singleton.mpr rfl)

/-- C8: each handler's constructed options record populates only the legal
field subset of its variant (dall-e-2: model, n, size, user; dall-e-3 has no
gpt-only fields; the gpt handlers have no style), and argument-bag fields
outside the subset are dropped without raising any error. -/
theorem claim_C8_legal_subset (args : Args) :
    ((dalle2Options args).quality = none ∧ (dalle2Options args).style = none ∧
     (dalle2Options args).background = none ∧ (dalle2Options args).moderation = none ∧
     (dalle2Options args).output_compression = none ∧
     (dalle2Options args).output_format = none) ∧
    ((dalle3Options args).background = none ∧ (dalle3Options args).moderation = none ∧
     (dalle3Options args).output_compression = none ∧
     (dalle3Options args).output_format = none) ∧
    ((gptImage1Options args).style = none ∧ (gptImage1MiniOptions args).style = none) ∧
    (argFalsy args.prompt = false → argFalsy args.output = false →
      ∀ (remote : ImageGenerateParams → Except String ImagesResponse)
        (fetch : String → Except String (List Nat)) (fsExists : String → Bool),
        ∃ out, (handleDalle2Generation args remote fetch fsExists).1 = Except.ok out) := by
  refine ⟨⟨rfl, rfl, rfl, rfl, rfl, rfl⟩, ⟨rfl, rfl, rfl, rfl⟩, ⟨rfl, rfl⟩, ?_⟩
  intro h1 h2 remote fetch fsExists
  exact runHandler_never_throws _ _ args remote fetch fsExists h1 h2

/-- Witness for C8: an argument bag full of fields illegal for dall-e-2 still
gets a normally-returned result, not a thrown error. -/
theorem claim_C8_witness :
    ∃ out, (handleDalle2Generation
      { prompt := some "p", output := some "/out/i.png", quality := some "hd",
        style := some "vivid", background := some "transparent",
        output_format := some "webp" }
      (fun _ => Except.error "network failure") (fun _ => Except.error "unused")
      (fun _ => true)).1 = Except.ok out :=
  (claim_C8_legal_subset
    { prompt := some "p", output := some "/out/i.png", quality := some "hd",
      style := some "vivid", background := some "transparent",
      output_format := some "webp" }).2.2.2 rfl rfl _ _ _

/-- C10: optional variant fields are forwarded from the argument bag into the
upstream call parameters verbatim, with no enum or range check: every upstream
call of the gpt handler carries exactly the caller's n, size, quality,
background, moderation, output_compression, output_format and user, and every
upstream call of the dall-e-2 handler carries the caller's n, size and user. -/
theorem claim_C10_forwarded_verbatim (args : Args)
    (remote : ImageGenerateParams → Except String ImagesResponse)
    (fetch : String → Except String (List Nat)) (fsExists : String → Bool)
    (p q : ImageGenerateParams) :
    (p ∈ (handleGptImageGeneration args remote fetch fsExists).2.remoteCalls →
      p.n = args.n ∧ p.size = args.size ∧ p.quality = args.quality ∧
      p.background = args.background ∧ p.moderation = args.moderation ∧
      p.output_compression = args.output_compression ∧
      p.output_format = args.output_format ∧ p.user = args.user) ∧
    (q ∈ (handleDalle2Generation args remote fetch fsExists).2.remoteCalls →
      q.n = args.n ∧ q.size = args.size ∧ q.user = args.user) := by
  constructor
  · intro hp
    unfold handleGptImageGeneration at hp
    rw [handler_remoteCalls_mem hp]
    exact ⟨rfl, rfl, rfl, rfl, rfl, rfl, rfl, rfl⟩
  · intro hq
    unfold handleDalle2Generation at hq
    rw [handler_remoteCalls_mem hq]
    exact ⟨rfl, rfl, rfl⟩

/-- Witness for C10: n = 50 and size bogus for dall-e-2 are forwarded
unchanged into the upstream call. -/
theorem claim_C10_witness :
    (buildParams "p" (dalle2Options { prompt := some "p", output := some "/out/i.png", n := some 50, size := some "bogus" })).n = some 50 ∧
    (buildParams "p" (dalle2Options { prompt := some "p", output := some "/out/i.png", n := some 50, size := some "bogus" })).size = some "bogus" ∧
    (buildParams "p" (dalle2Options { prompt := some "p", output := some "/out/i.png", n := some 50, size := some "bogus" })).user = none :=
  (claim_C10_forwarded_verbatim
    { prompt := some "p", output := some "/out/i.png", n := some 50, size := some "bogus" }
    (fun _ => Except.error "network failure") (fun _ => Except.error "unused")
    (fun _ => true)
    (buildParams "p" (dalle2Options { prompt := some "p", output := some "/out/i.png", n := some 50, size := some "bogus" }))
    (buildParams "p" (dalle2Options { prompt := some "p", output := some "/out/i.png", n := some 50, size := some "bogus" }))).2
    (by
      have h : (handleDalle2Generation
          { prompt := some "p", output := some "/out/i.png", n := some 50, size := some "bogus" }
          (fun _ => Except.error "network failure") (fun _ => Except.error "unused")
          (fun _ => true)).2.remoteCalls
          = [buildParams "p" (dalle2Options { prompt := some "p", output := some "/out/i.png", n := some 50, size := some "bogus" })] := rfl
      rw [h]
      exact List.mem_singleton.mpr rfl)

/-- C1 (evidence of the divergence): with an upstream success whose image list
is empty, the adapter substitutes the mock entry, writes exactly one file and
succeeds; but with an upstream success whose image list is absent (undefined),
the debug log at line 126 reads .length of undefined before the guard at line
129 can run, so the adapter throws and the handler reports the call as a
failure, contrary to the claim. -/
theorem claim_C1_empty_vs_absent :
    (generateImage "p" "/tmp/out.png"
        (dalle2Options { prompt := some "p", output := some "/tmp/out.png" })
        (fun _ => Except.ok { created := 0, data := some [] })
        (fun _ => Except.error "unused") (fun _ => true)).1
      = Except.ok { response := { created := 0, data := some [mockEntry] },
                    savedFiles := ["/tmp/out.png"] } ∧
    (generateImage "p" "/tmp/out.png"
        (dalle2Options { prompt := some "p", output := some "/tmp/out.png" })
        (fun _ => Except.ok { created := 0, data := none })
        (fun _ => Except.error "unused") (fun _ => true)).1
      = Except.error lengthOfUndefinedMsg ∧
    (handleDalle2Generation { prompt := some "p", output := some "/tmp/out.png" }
        (fun _ => Except.ok { created := 0, data := none })
        (fun _ => Except.error "unused") (fun _ => true)).1
      = Except.ok (ToolOutcome.failure (errText lengthOfUndefinedMsg)) :=
  ⟨rfl, rfl, rfl⟩

/-- C2: with valid required arguments, every adapter error is converted by the
handler into a normally returned failure payload whose text is derived from the
error message, in each of the four handlers; and the dispatcher never lets such
a call throw: any thrown protocol error has code MethodNotFound (unknown tool).
Missing-argument cases are outside the hypotheses and throw InvalidParams, as
proved for claim C3. -/
theorem claim_C2_errors_caught (args : Args)
    (remote : ImageGenerateParams → Except String ImagesResponse)
    (fetch : String → Except String (List Nat)) (fsExists : String → Bool)
    (e : String)
    (h1 : argFalsy args.prompt = false) (h2 : argFalsy args.output = false) :
    ((generateImage (args.prompt.getD "") (args.output.getD "")
        (gptImage1Options args) remote fetch fsExists).1 = Except.error e →
      (handleGptImageGeneration args remote fetch fsExists).1
        = Except.ok (ToolOutcome.failure (errText e))) ∧
    ((generateImage (args.prompt.getD "") (args.output.getD "")
        (gptImage1MiniOptions args) remote fetch fsExists).1 = Except.error e →
      (handleGptImageMiniGeneration args remote fetch fsExists).1
        = Except.ok (ToolOutcome.failure (errText e))) ∧
    ((generateImage (args.prompt.getD "") (args.output.getD "")
        (dalle3Options args) remote fetch fsExists).1 = Except.error e →
      (handleDalle3Generation args remote fetch fsExists).1
        = Except.ok (ToolOutcome.failure (errText e))) ∧
    ((generateImage (args.prompt.getD "") (args.output.getD "")
        (dalle2Options args) remote fetch fsExists).1 = Except.error e →
      (handleDalle2Generation args remote fetch fsExists).1
        = Except.ok (ToolOutcome.failure (errText e))) ∧
    (∀ (name : String) (err : McpError),
      (callTool name args remote fetch fsExists).1 = Except.error err →
      err.code = ErrCode.methodNotFound) := by
  refine ⟨?_, ?_, ?_, ?_, ?_⟩
  · intro he
    exact runHandler_adapter_error _ _ args remote fetch fsExists e h1 h2 he
  · intro he
    exact runHandler_adapter_error _ _ args remote fetch fsExists e h1 h2 he
  · intro he
    exact runHandler_adapter_error _ _ args remote fetch fsExists e h1 h2 he
  · intro he
    exact runHandler_adapter_error _ _ args remote fetch fsExists e h1 h2 he
  · intro name err hthrow
    unfold callTool at hthrow
    by_cases g1 : name = "generate_image_gpt"
    · rw [if_pos g1] at hthrow
      unfold handleGptImageGeneration at hthrow
      rcases runHandler_never_throws "gpt-image-1" (gptImage1Options args)
        args remote fetch fsExists h1 h2 with ⟨out, hout⟩
      rw [hout] at hthrow
      simp at hthrow
    · rw [if_neg g1] at hthrow
      by_cases g2 : name = "generate_image_gpt_mini"
      · rw [if_pos g2] at hthrow
        unfold handleGptImageMiniGeneration at hthrow
        rcases runHandler_never_throws "gpt-image-1-mini" (gptImage1MiniOptions args)
          args remote fetch fsExists h1 h2 with ⟨out, hout⟩
        rw [hout] at hthrow
        simp at hthrow
      · rw [if_neg g2] at hthrow
        by_cases g3 : name = "generate_image_dalle3"
        · rw [if_pos g3] at hthrow
          unfold handleDalle3Generation at hthrow
          rcases runHandler_never_throws "dall-e-3" (dalle3Options args)
            args remote fetch fsExists h1 h2 with ⟨out, hout⟩
          rw [hout] at hthrow
          simp at hthrow
        · rw [if_neg g3] at hthrow
          by_cases g4 : name = "generate_image_dalle2"
          · rw [if_pos g4] at hthrow
            unfold handleDalle2Generation at hthrow
            rcases runHandler_never_throws "dall-e-2" (dalle2Options args)
              args remote fetch fsExists h1 h2 with ⟨out, hout⟩
            rw [hout] at hthrow
            simp at hthrow
          · rw [if_neg g4] at hthrow
            dsimp only at hthrow
            rcases hthrow with ⟨⟩
            rfl

/-- Witness for C2: a simulated network failure inside the adapter is rendered
as an isError text payload, not a thrown error. -/
theorem claim_C2_witness :
    (handleGptImageGeneration { prompt := some "p", output := some "/x/i.png" }
      (fun _ => Except.error "network down") (fun _ => Except.error "unused")
      (fun _ => true)).1
    = Except.ok (ToolOutcome.failure (errText "network down")) :=
  (claim_C2_errors_caught { prompt := some "p", output := some "/x/i.png" }
    (fun _ => Except.error "network down") (fun _ => Except.error "unused")
    (fun _ => true) "network down" rfl rfl).1 rfl

/-- C3: for each of the four tools, an argument bag whose prompt or output is
missing or empty makes the dispatcher throw an InvalidParams protocol error
with an empty effect trace: no upstream call, no mkdir, no write. -/
theorem claim_C3_validation_first (name : String) (args : Args)
    (remote : ImageGenerateParams → Except String ImagesResponse)
    (fetch : String → Except String (List Nat)) (fsExists : String → Bool)
    (hn : name = "generate_image_gpt" ∨ name = "generate_image_gpt_mini" ∨
          name = "generate_image_dalle3" ∨ name = "generate_image_dalle2")
    (hv : argFalsy args.prompt = true ∨ argFalsy args.output = true) :
    (callTool name args remote fetch fsExists).2 = {} ∧
    ∃ m, (callTool name args remote fetch fsExists).1
      = Except.error { code := ErrCode.invalidParams, message := m } := by
  rcases hn with rfl | rfl | rfl | rfl
  · have hc : callTool "generate_image_gpt" args remote fetch fsExists
        = runHandler "gpt-image-1" (gptImage1Options args) args remote fetch fsExists := rfl
    rw [hc]
    exact runHandler_invalid _ _ args remote fetch fsExists hv
  · have hc : callTool "generate_image_gpt_mini" args remote fetch fsExists
        = runHandler "gpt-image-1-mini" (gptImage1MiniOptions args) args remote fetch fsExists := rfl
    rw [hc]
    exact runHandler_invalid _ _ args remote fetch fsExists hv
  · have hc : callTool "generate_image_dalle3" args remote fetch fsExists
        = runHandler "dall-e-3" (dalle3Options args) args remote fetch fsExists := rfl
    rw [hc]
    exact runHandler_invalid _ _ args remote fetch fsExists hv
  · have hc : callTool "generate_image_dalle2" args remote fetch fsExists
        = runHandler "dall-e-2" (dalle2Options args) args remote fetch fsExists := rfl
    rw [hc]
    exact runHandler_invalid _ _ args remote fetch fsExists hv

/-- Witness for C3: a dall-e-2 invocation with prompt omitted throws
InvalidParams and performs no remote call and no filesystem effect. -/
theorem claim_C3_witness :
    (callTool "generate_image_dalle2" { output := some "/x/i.png" }
      (fun _ => Except.ok { created := 0, data := some [] })
      (fun _ => Except.error "unused") (fun _ => true)).2 = {} ∧
    ∃ m, (callTool "generate_image_dalle2" { output := some "/x/i.png" }
      (fun _ => Except.ok { created := 0, data := some [] })
      (fun _ => Except.error "unused") (fun _ => true)).1
      = Except.error { code := ErrCode.invalidParams, message := m } :=
  claim_C3_validation_first "generate_image_dalle2" { output := some "/x/i.png" }
    (fun _ => Except.ok { created := 0, data := some [] })
    (fun _ => Except.error "unused") (fun _ => true)
    (Or.inr (Or.inr (Or.inr rfl))) (Or.inl rfl)

/-- Counterexample to C7 as stated: an adapter call that succeeds on an empty
upstream image list returns a response whose image list is the substituted
placeholder entry, which differs from the raw upstream response. -/
theorem claim_C7_counterexample :
    (generateImage "p" "/t/a.png"
        (dalle2Options { prompt := some "p", output := some "/t/a.png" })
        (fun _ => Except.ok { created := 7, data := some [] })
        (fun _ => Except.error "unused") (fun _ => true)).1
      = Except.ok { response := { created := 7, data := some [mockEntry] },
                    savedFiles := ["/t/a.png"] } ∧
    ({ created := 7, data := some [mockEntry] } : ImagesResponse)
      ≠ { created := 7, data := some [] } :=
  ⟨rfl, by decide⟩

/-- C7 amended: a successful adapter call returns the raw upstream response
unmodified whenever the upstream image list is nonempty; when that list is
empty the returned response instead carries the single substituted placeholder
entry (the saved-path list is returned alongside in both cases). -/
theorem claim_C7_response_passthrough (prompt outputPath : String)
    (options : ImageGenerationOptions)
    (remote : ImageGenerateParams → Except String ImagesResponse)
    (fetch : String → Except String (List Nat)) (fsExists : String → Bool)
    (resp : ImagesResponse) (d : List ImageData) (r : ImageGenerationResult)
    (hremote : remote (buildParams prompt options) = Except.ok resp)
    (hdata : resp.data = some d)
    (hok : (generateImage prompt outputPath options remote fetch fsExists).1
      = Except.ok r) :
    (d ≠ [] → r.response = resp) ∧
    (d = [] → r.response = { resp with data := some [mockEntry] }) := by
  unfold generateImage at hok
  dsimp only at hok
  rw [hremote] at hok
  dsimp only at hok
  rw [hdata] at hok
  dsimp only at hok
  revert hok
  cases hs : (saveImages (if d.length = 0 then [mockEntry] else d)
      outputPath fetch fsExists).1 with
  | error e =>
    intro hok
    dsimp only at hok
    exact absurd hok (by simp)
  | ok savedFiles =>
    intro hok
    dsimp only at hok
    have hr : r =
        { response := { resp with data := some (if d.length = 0 then [mockEntry] else d) },
          savedFiles := savedFiles } := by
      injection hok with h
      exact h.symm
    constructor
    · intro hne
      have hlen : d.length ≠ 0 := fun h => hne (List.length_eq_zero.mp h)
      rw [hr]
      dsimp only
      rw [if_neg hlen]
      cases resp with
      | mk created dat =>
        dsimp only at hdata
        rw [hdata]
    · intro hnil
      subst hnil
      rw [hr]
      simp

/-- Witness for C7 amended: with a nonempty upstream list the returned response
equals the upstream response. -/
theorem claim_C7_witness :
    ({ response := { created := 1, data := some [{ b64_json := some "QUJD", url := none }] },
       savedFiles := ["/t/a.png"] } : ImageGenerationResult).response
      = { created := 1, data := some [{ b64_json := some "QUJD", url := none }] } :=
  (claim_C7_response_passthrough "p" "/t/a.png"
    (dalle2Options { prompt := some "p", output := some "/t/a.png" })
    (fun _ => Except.ok { created := 1, data := some [{ b64_json := some "QUJD", url := none }] })
    (fun _ => Except.error "unused") (fun _ => true)
    { created := 1, data := some [{ b64_json := some "QUJD", url := none }] }
    [{ b64_json := some "QUJD", url := none }]
    { response := { created := 1, data := some [{ b64_json := some "QUJD", url := none }] },
      savedFiles := ["/t/a.png"] }
    rfl rfl rfl).1 (by decide)

/-- Counterexample to C5 as stated: with the output container format configured
as jpeg and an entry that has neither inline bytes nor a URL, the code still
writes its fixed PNG placeholder, which is not in the jpeg container format. -/
theorem claim_C5_counterexample :
    (generateImage "p" "/tmp/a.jpeg"
        (gptImage1Options { prompt := some "p", output := some "/tmp/a.jpeg", output_format := some "jpeg" })
        (fun _ => Except.ok { created := 0, data := some [{ b64_json := none, url := none }] })
        (fun _ => Except.error "unused") (fun _ => true)).2.fs
      = [FsEvent.write "/tmp/a.jpeg" pngPlaceholder] ∧
    (gptImage1Options { prompt := some "p", output := some "/tmp/a.jpeg", output_format := some "jpeg" }).output_format = some "jpeg" ∧
    matchesContainerFormat "jpeg" pngPlaceholder = false ∧
    matchesContainerFormat "png" pngPlaceholder = true :=
  ⟨rfl, rfl, by decide, by decide⟩

/-- C5 amended: per image entry the write precedence is (a) truthy inline
b64_json: decode and write; (b) else truthy url: fetch and write; (c)
otherwise write the fixed minimal valid 1x1 PNG placeholder, so such a write
never fails; the placeholder is a PNG regardless of the configured output
container format. -/
theorem claim_C5_precedence (img : ImageData)
    (fetch : String → Except String (List Nat)) (p : String)
    (fsExists : String → Bool) :
    (jsTruthy img.b64_json = true →
      entryBytes img fetch = Except.ok (b64decode (img.b64_json.getD ""))) ∧
    (jsTruthy img.b64_json = false → jsTruthy img.url = true →
      entryBytes img fetch = fetch (img.url.getD "")) ∧
    (jsTruthy img.b64_json = false → jsTruthy img.url = false →
      entryBytes img fetch = Except.ok pngPlaceholder ∧
      (saveImages [img] p fetch fsExists).1 = Except.ok [p]) ∧
    isMinimalPng pngPlaceholder = true := by
  refine ⟨?_, ?_, ?_, by decide⟩
  · intro h
    unfold entryBytes
    rw [if_pos h]
  · intro h1 h2
    unfold entryBytes
    rw [if_neg (by simp [h1]), if_pos h2]
  · intro h1 h2
    have hb : entryBytes img fetch = Except.ok pngPlaceholder := by
      unfold entryBytes
      rw [if_neg (by simp [h1]), if_neg (by simp [h2])]
    refine ⟨hb, ?_⟩
    unfold saveImages
    simp [saveEntries, hb, entryFilePath]

/-- Witness for C5 amended: an entry with neither payload gets the placeholder
bytes and the save loop succeeds with the single requested path. -/
theorem claim_C5_witness :
    entryBytes { b64_json := none, url := none } (fun _ => Except.error "unused")
      = Except.ok pngPlaceholder ∧
    (saveImages [{ b64_json := none, url := none }] "/t/a.png"
      (fun _ => Except.error "unused") (fun _ => true)).1 = Except.ok ["/t/a.png"] :=
  (claim_C5_precedence { b64_json := none, url := none }
    (fun _ => Except.error "unused") "/t/a.png" (fun _ => true)).2.2.1 rfl rfl

theorem strData_append (s t : String) : (s ++ t).data = s.data ++ t.data := rfl

/-- C4: for a destination path of the canonical form dir/stem.ext, a
successful save of an N-entry list writes the single file at the destination
path verbatim when N = 1, and when N is greater than 1 writes the i-th file
(1-based) at the sibling path with _i inserted before the extension, preserving
directory and extension, with the returned path list in entry order; and when
the destination directory does not exist, the recursive mkdir of that
directory is the first filesystem event, before any write. -/
theorem claim_C4_path_derivation (data : List ImageData) (d stem e : List Char)
    (fetch : String → Except String (List Nat)) (fsExists : String → Bool)
    (files : List String)
    (hd : d ≠ []) (hstem : stem ≠ []) (hs1 : '/' ∉ stem)
    (he1 : '/' ∉ e) (he2 : '.' ∉ e)
    (hok : (saveImages data (String.mk (d ++ '/' :: (stem ++ '.' :: e)))
      fetch fsExists).1 = Except.ok files) :
    (data.length = 1 → files = [String.mk (d ++ '/' :: (stem ++ '.' :: e))]) ∧
    (1 < data.length →
      files = (List.range data.length).map (fun k =>
        String.mk (d ++ '/' :: (stem ++ '_' :: ((toString (k + 1)).data ++ '.' :: e))))) ∧
    (fsExists (String.mk d) = false →
      (saveImages data (String.mk (d ++ '/' :: (stem ++ '.' :: e)))
        fetch fsExists).2.head? = some (FsEvent.mkdir (String.mk d))) := by
  have hdir : dirname (String.mk (d ++ '/' :: (stem ++ '.' :: e))) = String.mk d :=
    dirname_shape d stem e hd hs1 he1
  have hext : extname (String.mk (d ++ '/' :: (stem ++ '.' :: e)))
      = String.mk ('.' :: e) :=
    extname_shape d stem e hstem hs1 he1 he2
  have hbase : basenameSuffix (String.mk (d ++ '/' :: (stem ++ '.' :: e)))
      (String.mk ('.' :: e)) = String.mk stem :=
    basename_shape d stem e hstem hs1 he1
  unfold saveImages at hok ⊢
  dsimp only at hok ⊢
  rw [hdir, hext, hbase] at hok ⊢
  revert hok
  cases hsE : (saveEntries fetch data.length
      (String.mk (d ++ '/' :: (stem ++ '.' :: e))) (String.mk d) (String.mk stem)
      (String.mk ('.' :: e)) 0 data).1 with
  | error e2 =>
    intro hok
    dsimp only at hok
    exact absurd hok (by simp)
  | ok u =>
    intro hok
    dsimp only at hok ⊢
    have hsE1 : (saveEntries fetch data.length
        (String.mk (d ++ '/' :: (stem ++ '.' :: e))) (String.mk d) (String.mk stem)
        (String.mk ('.' :: e)) 0 data).1 = Except.ok () := hsE
    have hfiles : files = (saveEntries fetch data.length
        (String.mk (d ++ '/' :: (stem ++ '.' :: e))) (String.mk d) (String.mk stem)
        (String.mk ('.' :: e)) 0 data).2.map Prod.fst := by
      injection hok with h
      exact h.symm
    rw [saveEntries_ok_map_fst fetch data.length
      (String.mk (d ++ '/' :: (stem ++ '.' :: e))) (String.mk d) (String.mk stem)
      (String.mk ('.' :: e)) data 0 hsE1] at hfiles
    simp only [Nat.zero_add] at hfiles
    refine ⟨?_, ?_, ?_⟩
    · intro h1
      rw [hfiles, h1]
      simp [entryFilePath]
    · intro hgt
      have hne : data.length ≠ 1 := by omega
      rw [hfiles]
      apply List.map_congr_left
      intro k _
      unfold entryFilePath
      rw [if_neg hne]
      unfold pathJoin
      rw [if_neg (show ¬((String.mk d).data = []) from hd)]
      refine congrArg String.mk ?_
      simp [strData_append]
    · intro hex
      rw [hex]
      simp

/-- Witness for C4: three entries and destination /tmp/x/img.png produce
/tmp/x/img_1.png, /tmp/x/img_2.png and /tmp/x/img_3.png in that order, and the
absent directory /tmp/x is created first. -/
theorem claim_C4_witness :
    (["/tmp/x/img_1.png", "/tmp/x/img_2.png", "/tmp/x/img_3.png"] : List String)
      = (List.range 3).map (fun k =>
          String.mk ("/tmp/x".data ++ '/' :: ("img".data ++ '_' :: ((toString (k + 1)).data ++ '.' :: "png".data)))) ∧
    (saveImages [mockEntry, mockEntry, mockEntry] "/tmp/x/img.png"
      (fun _ => Except.error "unused") (fun _ => false)).2.head?
      = some (FsEvent.mkdir "/tmp/x") :=
  ⟨(claim_C4_path_derivation [mockEntry, mockEntry, mockEntry]
      "/tmp/x".data "img".data "png".data
      (fun _ => Except.error "unused") (fun _ => false)
      ["/tmp/x/img_1.png", "/tmp/x/img_2.png", "/tmp/x/img_3.png"]
      (by decide) (by decide) (by decide) (by decide) (by decide)
      rfl).2.1 (by decide),
   (claim_C4_path_derivation [mockEntry, mockEntry, mockEntry]
      "/tmp/x".data "img".data "png".data
      (fun _ => Except.error "unused") (fun _ => false)
      ["/tmp/x/img_1.png", "/tmp/x/img_2.png", "/tmp/x/img_3.png"]
      (by decide) (by decide) (by decide) (by decide) (by decide)
      rfl).2.2 rfl⟩

end OpenAiMcp
